import Mathlib

/-!
# Scroll-driven 3D viewer (`src/script.js`, class `SceneManager`)

A shallow embedding of the `SceneManager` class and proofs about its
scroll-to-transform mapping, model normalisation, resize handling and
light rig.

Numbers are elements of an arbitrary linearly ordered field `α`, so every
statement holds both in exact rational arithmetic (`α = ℚ`, where the
definitions evaluate) and in exact real arithmetic (`α = ℝ`).  The library
constant `Math.PI` is a parameter `pi : α`.  A JavaScript division whose
divisor is a run-time value is partial: it has no result when the divisor
is zero (JavaScript yields `NaN` or `±Infinity` there, neither of which is
a number of `α`).
-/

set_option autoImplicit false
set_option linter.unusedVariables false

namespace Script

variable {α : Type} [LinearOrderedField α]

/-! ## Library data (three.js values the script reads and writes) -/

/-- A `THREE.Vector3` (also used for the three Euler angles of `rotation`). -/
structure Vector3 (α : Type) where
  x : α
  y : α
  z : α
deriving DecidableEq

/-- The result of `setScalar(s)`: all three components become `s`. -/
def Vector3.setScalar (s : α) : Vector3 α := ⟨s, s, s⟩

/-- A `THREE.Box3`: an axis-aligned box given by its two extreme corners. -/
structure Box3 (α : Type) where
  min : Vector3 α
  max : Vector3 α

/-- A box is empty when its maximum lies below its minimum on some axis
(`Box3.isEmpty`). -/
def Box3.isEmpty (b : Box3 α) : Bool :=
  decide (b.max.x < b.min.x) || decide (b.max.y < b.min.y) || decide (b.max.z < b.min.z)

/-- Edge lengths of the box (`Box3.getSize`): zero for an empty box, `max - min`
otherwise. -/
def Box3.getSize (b : Box3 α) : Vector3 α :=
  if b.isEmpty then ⟨0, 0, 0⟩
  else ⟨b.max.x - b.min.x, b.max.y - b.min.y, b.max.z - b.min.z⟩

/-- Centre of the box (`Box3.getCenter`): zero for an empty box, `(min + max) * 0.5`
otherwise. -/
def Box3.getCenter (b : Box3 α) : Vector3 α :=
  if b.isEmpty then ⟨0, 0, 0⟩
  else ⟨(b.min.x + b.max.x) * 0.5, (b.min.y + b.max.y) * 0.5, (b.min.z + b.max.z) * 0.5⟩

/-- The parameter object handed to `new THREE.MeshPhysicalMaterial`. -/
structure MeshPhysicalMaterial (α : Type) where
  color : Nat
  metalness : α
  roughness : α
  clearcoat : α
  clearcoatRoughness : α
  emissive : Nat
  emissiveIntensity : α
  reflectivity : α
  ior : α

/-- A material attached to a mesh: one authored in the asset, or the physical
material the script installs. -/
inductive Material (α : Type) where
  | authored (id : Nat)
  | physical (m : MeshPhysicalMaterial α)

/-- One object visited by `traverse`: whether it is a mesh, and its material
slot (`none` when `child.material` is falsy). -/
structure Node (α : Type) where
  isMesh : Bool
  material : Option (Material α)

/-- The root object of a loaded asset (`gltf.scene`) with the data the script
touches: its transform, the objects that `traverse` visits, and the bounds of
its geometry in the root's own frame (what `Box3.setFromObject` measures). -/
structure Object3D (α : Type) where
  position : Vector3 α
  rotation : Vector3 α
  scale : Vector3 α
  nodes : List (Node α)
  geometry : Box3 α

/-- World-space bounding box of a model root (`Box3.setFromObject`) for a root
whose rotation is the identity and whose parent is the untransformed scene: each
axis interval of the geometry is scaled by the root's scale and moved by the
root's position; an empty geometry gives an empty box. -/
def Box3.setFromObject (o : Object3D α) : Box3 α :=
  if o.geometry.isEmpty then o.geometry
  else
    ⟨⟨Min.min (o.geometry.min.x * o.scale.x + o.position.x) (o.geometry.max.x * o.scale.x + o.position.x),
      Min.min (o.geometry.min.y * o.scale.y + o.position.y) (o.geometry.max.y * o.scale.y + o.position.y),
      Min.min (o.geometry.min.z * o.scale.z + o.position.z) (o.geometry.max.z * o.scale.z + o.position.z)⟩,
     ⟨Max.max (o.geometry.min.x * o.scale.x + o.position.x) (o.geometry.max.x * o.scale.x + o.position.x),
      Max.max (o.geometry.min.y * o.scale.y + o.position.y) (o.geometry.max.y * o.scale.y + o.position.y),
      Max.max (o.geometry.min.z * o.scale.z + o.position.z) (o.geometry.max.z * o.scale.z + o.position.z)⟩⟩

/-- The light objects the script can meet in a scene, with the constructor
arguments and the properties it sets. -/
inductive Light (α : Type) where
  | ambient (color : Nat) (intensity : α)
  | directional (color : Nat) (intensity : α) (position : Vector3 α)
  | spot (color : Nat) (intensity : α) (position : Vector3 α) (angle : α) (penumbra : α)
  | point (color : Nat) (intensity : α) (distance : α) (position : Vector3 α)
deriving DecidableEq

/-- An entry of `scene.children`: a light, the loaded model root (the object
`this.model` refers to), or some other object that is not a light. -/
inductive SceneChild (α : Type) where
  | light (l : Light α)
  | model
  | other (id : Nat)
deriving DecidableEq

/-- The `isLight` flag of a scene child. -/
def SceneChild.isLight : SceneChild α → Bool
  | .light _ => true
  | .model => false
  | .other _ => false

/-- The four parameters a perspective projection matrix is computed from. -/
structure Projection (α : Type) where
  fov : α
  aspect : α
  near : α
  far : α

/-- A `THREE.PerspectiveCamera`: its parameters, its position, the point it looks
at, and the projection matrix, represented by the parameters it was last computed
from. -/
structure PerspectiveCamera (α : Type) where
  fov : α
  aspect : α
  near : α
  far : α
  position : Vector3 α
  target : Vector3 α
  projectionMatrix : Projection α

/-- Recompute the projection matrix from the current camera parameters
(`camera.updateProjectionMatrix()`). -/
def PerspectiveCamera.updateProjectionMatrix (c : PerspectiveCamera α) : PerspectiveCamera α :=
  { c with projectionMatrix := ⟨c.fov, c.aspect, c.near, c.far⟩ }

/-- What one `render` call draws: the camera and the scene content at the time of
the call. -/
structure Frame (α : Type) where
  camera : PerspectiveCamera α
  children : List (SceneChild α)
  model : Option (Object3D α)

/-- A `THREE.WebGLRenderer`: its output size and the last frame it drew. -/
structure WebGLRenderer (α : Type) where
  width : α
  height : α
  frame : Option (Frame α)

/-- Resize the output (`renderer.setSize(width, height)`). -/
def WebGLRenderer.setSize (r : WebGLRenderer α) (width height : α) : WebGLRenderer α :=
  { r with width := width, height := height }

/-- Draw the scene through the camera (`renderer.render(scene, camera)`); `model`
is the object a `SceneChild.model` entry refers to. -/
def WebGLRenderer.render (r : WebGLRenderer α) (children : List (SceneChild α))
    (model : Option (Object3D α)) (camera : PerspectiveCamera α) : WebGLRenderer α :=
  { r with frame := some ⟨camera, children, model⟩ }

/-- The host metrics read from `window`. -/
structure Window (α : Type) where
  innerWidth : α
  innerHeight : α
  scrollY : α

/-- The host document: `documentElement.scrollHeight` and the `style.opacity` of the
element matching `.hero` (`none` when no element matches). -/
structure Document (α : Type) where
  scrollHeight : α
  hero : Option α

/-- The mutable fields of a `SceneManager` instance; `scene` is `scene.children`,
`model` is `none` for `null`. -/
structure SceneManager (α : Type) where
  scene : List (SceneChild α)
  camera : PerspectiveCamera α
  renderer : WebGLRenderer α
  model : Option (Object3D α)
  scrollPercent : α

/-- Outcome of one `onScroll` call. -/
inductive ScrollOutcome (α : Type) where
  /-- the handler ran to its end, leaving this instance and document -/
  | done (s : SceneManager α) (doc : Document α)
  /-- the scroll range is zero: `scrollY / totalHeight` is `NaN` or `±Infinity`, not
  a number of `α`; that value is what the source stores, and the embedding follows
  the handler no further -/
  | notANumber
  /-- no `.hero` element: `hero.style` throws after `scrollPercent` was stored -/
  | typeError (s : SceneManager α)

namespace SceneManager

/-! ## Arithmetic helpers -/

/-- Division by a run-time divisor: `a / b` of the source, which is a real
number only when `b ≠ 0`. -/
def jsDiv (a b : α) : Option α :=
  if b = 0 then none else some (a / b)

/-- Method `lerp` (script.js 206-210): the parameter `t` is first replaced by
its cubic ease-in-out image, then used for a linear blend. -/
def lerp (start end_ t : α) : α :=
  let t := if t < 0.5 then 4 * t * t * t else 1 - (-2 * t + 2) ^ 3 / 2
  start + (end_ - start) * t

/-- The easing inside `lerp`, obtained as `lerp(0, 1, t)`. -/
def ease (t : α) : α := lerp 0 1 t

/-! ## Methods -/

/-- The light rig of `setupLights`, in insertion order; `pi` is `Math.PI`. -/
def lightRig (pi : α) : List (SceneChild α) :=
  [ .light (.ambient 0xFFFFFF 0.8),
    .light (.directional 0xFFFFFF 4.0 ⟨2, 5, 5⟩),
    .light (.spot 0xFF00FF 10 ⟨-5, 10, 5⟩ (pi / 4) 0.5),
    .light (.point 0x4B0082 3 100 ⟨5, -5, -5⟩) ]

/-- Method `setupLights` (script.js 42-67): every child with `isLight` is removed
from the scene, one `scene.remove` per light of the filtered copy, then the four
lights are added at the end (`scene.add` of a fresh object appends it). -/
def setupLights (pi : α) (s : SceneManager α) : SceneManager α :=
  let lights := s.scene.filter SceneChild.isLight
  let children := lights.foldl (fun cs light => cs.erase light) s.scene
  let children := children ++ [.light (.ambient 0xFFFFFF 0.8)]
  let children := children ++ [.light (.directional 0xFFFFFF 4.0 ⟨2, 5, 5⟩)]
  let children := children ++ [.light (.spot 0xFF00FF 10 ⟨-5, 10, 5⟩ (pi / 4) 0.5)]
  let children := children ++ [.light (.point 0x4B0082 3 100 ⟨5, -5, -5⟩)]
  { s with scene := children }

/-- The material every mesh receives in the load callback (script.js 79-89). -/
def newMaterial : MeshPhysicalMaterial α :=
  { color := 0xE100FF, metalness := 1.0, roughness := 0.2, clearcoat := 1.0,
    clearcoatRoughness := 0.1, emissive := 0x9400D3, emissiveIntensity := 0.3,
    reflectivity := 1.0, ior := 2.0 }

/-- Method `loadModel` with the outcome of the asynchronous load as an argument
(script.js 69-111): `none` is a load that never succeeds, so the callback never
runs; `some gltfScene` runs the callback on `gltf.scene`.  The result is `none`
when `20 / maxDim` is not a number (`maxDim = 0`). -/
def loadModel (gltf : Option (Object3D α)) (s : SceneManager α) : Option (SceneManager α) :=
  match gltf with
  | none => some s
  | some gltfScene =>
    let model : Object3D α := gltfScene
    let model : Object3D α := { model with nodes := model.nodes.map fun (child : Node α) =>
      if child.isMesh then
        match child.material with
        | some _ => { child with material := some (.physical newMaterial) }
        | none => child
      else child }
    let children : List (SceneChild α) := s.scene ++ [SceneChild.model]
    let model : Object3D α := { model with position := ⟨0, -70, 50⟩ }
    let box : Box3 α := Box3.setFromObject model
    let size : Vector3 α := box.getSize
    let maxDim : α := max (max size.x size.y) size.z
    match jsDiv 20 maxDim with
    | none => none
    | some scale =>
      let model : Object3D α := { model with scale := Vector3.setScalar scale }
      let center : Vector3 α := box.getCenter
      let model : Object3D α := { model with
        position := { model.position with x := model.position.x - center.x * scale } }
      some { s with scene := children, model := some model }

/-- Method `onWindowResize` (script.js 118-122) for the viewport in `w`; `none` when
`innerWidth / innerHeight` is not a number. -/
def onWindowResize (w : Window α) (s : SceneManager α) : Option (SceneManager α) :=
  match jsDiv w.innerWidth w.innerHeight with
  | none => none
  | some aspect =>
    let camera := { s.camera with aspect := aspect }
    let camera := camera.updateProjectionMatrix
    some { s with camera := camera, renderer := s.renderer.setSize w.innerWidth w.innerHeight }

/-- The opacity chosen by the `if`/`else if`/`else` chain of `onScroll`
(script.js 130-140) for a stored progress. -/
def heroOpacity (scrollPercent : α) : α :=
  let fadeStartThreshold : α := 0.1
  let fadeEndThreshold : α := 0.15
  if scrollPercent ≤ fadeStartThreshold then 1
  else if scrollPercent ≤ fadeEndThreshold then
    let fadeProgress := (scrollPercent - fadeStartThreshold) / (fadeEndThreshold - fadeStartThreshold)
    1 - fadeProgress
  else 0

/-- Method `onScroll` (script.js 124-141). -/
def onScroll (w : Window α) (doc : Document α) (s : SceneManager α) : ScrollOutcome α :=
  let totalHeight := doc.scrollHeight - w.innerHeight
  match jsDiv w.scrollY totalHeight with
  | none => .notANumber
  | some p =>
    let s := { s with scrollPercent := p }
    match doc.hero with
    | none => .typeError s
    | some _ => .done s { doc with hero := some (heroOpacity s.scrollPercent) }

/-- Method `updateModel` (script.js 143-186); `pi` is `Math.PI`.  The three phase
bands compute their local values and apply none of them: each call of
`updateModelTransform` is commented out in the source. -/
def updateModel (pi : α) (s : SceneManager α) : SceneManager α :=
  match s.model with
  | none => s
  | some model =>
    let progress : α := s.scrollPercent
    let camera : PerspectiveCamera α := { s.camera with
      position := { s.camera.position with z := lerp 50 100 progress } }
    let model : Object3D α :=
      { model with position := { model.position with y := lerp (-20) 20 progress } }
    let model : Object3D α :=
      { model with position := { model.position with z := lerp 0 50 progress } }
    let model : Object3D α :=
      { model with rotation := { model.rotation with x := progress * pi * 2 } }
    let model : Object3D α :=
      { model with rotation := { model.rotation with y := progress * pi * 2 } }
    let model : Object3D α :=
      { model with rotation := { model.rotation with z := progress * pi * 2 } }
    let scale : α := lerp 20 25 progress
    let model : Object3D α := { model with scale := Vector3.setScalar scale }
    let s : SceneManager α := { s with camera := camera, model := some model }
    if progress < 0.2 then
      let t : α := progress / 0.2
      let yPos : α := lerp (-70) 0 t
      let zPos : α := lerp 20 20 t
      let opacity : α := 1
      s
    else if progress < 0.3 then
      let t : α := (progress - 0.2) / 0.1
      let yPos : α := lerp 0 150 t
      let zPos : α := lerp 20 100 t
      let scale : α := lerp 25 5 t
      let opacity : α := 1 - t
      s
    else
      s

/-- One tick of method `animate` (script.js 212-218): `updateModel`, the update of
the orbit controls (an external collaborator acting on the camera, passed as
`controlsUpdate`), then one `render`.  The tick re-schedules itself through
`requestAnimationFrame`, so the ticks follow one another for ever. -/
def animate (pi : α) (controlsUpdate : PerspectiveCamera α → PerspectiveCamera α)
    (s : SceneManager α) : SceneManager α :=
  let s := updateModel pi s
  let s := { s with camera := controlsUpdate s.camera }
  { s with renderer := s.renderer.render s.scene s.model s.camera }

/-! ## Measurements used in the statements -/

/-- The mesh materials after the load callback: every mesh that has a material gets
the physical material. -/
def paintedNodes (nodes : List (Node α)) : List (Node α) :=
  nodes.map fun (child : Node α) =>
    if child.isMesh then
      match child.material with
      | some _ => { child with material := some (.physical newMaterial) }
      | none => child
    else child

/-- The box measured by the load callback: the model root staged at `(0, -70, 50)`. -/
def stagedBox (gltfScene : Object3D α) : Box3 α :=
  Box3.setFromObject { gltfScene with position := ⟨0, -70, 50⟩ }

/-! ## Concrete data for evaluation -/

/-- The value of `Math.PI` as an IEEE double, which is a rational number. -/
def mathPI : ℚ := 884279719003555 / 281474976710656

/-- A camera as `init` leaves it for a 1024 x 768 viewport. -/
def demoCamera : PerspectiveCamera ℚ :=
  { fov := 45, aspect := 4 / 3, near := 0.1, far := 1000,
    position := ⟨0, 0, 50⟩, target := ⟨0, 0, 0⟩,
    projectionMatrix := ⟨45, 4 / 3, 0.1, 1000⟩ }

/-- An asset whose geometry is the box `[1,3] x [0,1] x [0,1]`, at unit scale. -/
def demoAsset : Object3D ℚ :=
  { position := ⟨0, 0, 0⟩, rotation := ⟨0, 0, 0⟩, scale := ⟨1, 1, 1⟩,
    nodes := [⟨false, none⟩, ⟨true, some (.authored 0)⟩],
    geometry := ⟨⟨1, 0, 0⟩, ⟨3, 1, 1⟩⟩ }

/-- An instance before the load resolves (`model` is `null`). -/
def demoEmpty : SceneManager ℚ :=
  { scene := lightRig mathPI, camera := demoCamera,
    renderer := ⟨1024, 768, none⟩, model := none, scrollPercent := 1 / 4 }

/-- An instance that owns `demoAsset` as its model, scrolled to the top. -/
def demoLoaded : SceneManager ℚ :=
  { scene := lightRig mathPI ++ [.model], camera := demoCamera,
    renderer := ⟨1024, 768, none⟩, model := some demoAsset, scrollPercent := 0 }

/-- A 1024 x 768 window scrolled by 250 pixels. -/
def demoWindow : Window ℚ := ⟨1024, 768, 250⟩

/-- A document of height 2768 (scroll range 2000) with a fully opaque `.hero`. -/
def demoDocument : Document ℚ := ⟨2768, some 1⟩

/-- A document exactly as tall as the viewport of `demoWindow`, with a `.hero`. -/
def flatDocument : Document ℚ := ⟨768, some 1⟩

/-- The window of `demoWindow` at scroll offset zero. -/
def topWindow : Window ℚ := ⟨1024, 768, 0⟩

/-- The instance as the constructor leaves it for a 1024 x 768 viewport, before the
load resolves: `model` is `null` and `scrollPercent` is `0`. -/
def freshInstance : SceneManager ℚ :=
  { scene := lightRig mathPI, camera := demoCamera,
    renderer := ⟨1024, 768, none⟩, model := none, scrollPercent := 0 }

/-- An asset authored in units where it is the cube `[0,1]³`. -/
def unitCube : Object3D ℚ :=
  { position := ⟨0, 0, 0⟩, rotation := ⟨0, 0, 0⟩, scale := ⟨1, 1, 1⟩,
    nodes := [⟨true, some (.authored 0)⟩], geometry := ⟨⟨0, 0, 0⟩, ⟨1, 1, 1⟩⟩ }

/-- The same shape authored in units half as large: the cube `[0,2]³`. -/
def doubleCube : Object3D ℚ :=
  { position := ⟨0, 0, 0⟩, rotation := ⟨0, 0, 0⟩, scale := ⟨1, 1, 1⟩,
    nodes := [⟨true, some (.authored 0)⟩], geometry := ⟨⟨0, 0, 0⟩, ⟨2, 2, 2⟩⟩ }

/-- Largest edge of the world-space bounding box of the model drawn in a frame,
measured as the load callback measures `maxDim`. -/
def drawnMaxExtent (f : Frame α) : Option α :=
  f.model.map fun m =>
    let size : Vector3 α := (Box3.setFromObject m).getSize
    max (max size.x size.y) size.z

/-! ## Easing lemmas -/

theorem half_eq : (0.5 : α) = 1 / 2 := by norm_num

theorem lerp_eq_ease (a b t : α) : lerp a b t = a + (b - a) * ease t := by
  simp [ease, lerp]

theorem ease_of_lt {t : α} (h : t < 1 / 2) : ease t = 4 * t ^ 3 := by
  simp only [ease, lerp, half_eq]
  rw [if_pos h]
  ring

theorem ease_of_ge {t : α} (h : 1 / 2 ≤ t) : ease t = 1 - (2 - 2 * t) ^ 3 / 2 := by
  simp only [ease, lerp, half_eq]
  rw [if_neg (not_lt.mpr h)]
  ring

theorem cube_le_cube {x y : α} (hx : 0 ≤ x) (hxy : x ≤ y) : x ^ 3 ≤ y ^ 3 :=
  pow_le_pow_left₀ hx hxy 3

theorem ease_zero : ease (0 : α) = 0 := by
  rw [ease_of_lt (by norm_num)]; norm_num

theorem ease_half : ease (1 / 2 : α) = 1 / 2 := by
  rw [ease_of_ge (le_refl _)]; norm_num

theorem ease_one : ease (1 : α) = 1 := by
  rw [ease_of_ge (by norm_num)]; norm_num

/-! ## The easing claims -/

/-- Claim C2: the easing applied by `lerp`, `ease t = lerp 0 1 t`, is monotonically
non-decreasing over `[0,1]`: `0 ≤ s ≤ t ≤ 1` gives `ease s ≤ ease t`, the pairs
that straddle the branch switch at `0.5` included. -/
theorem ease_monotone_on_unit (s t : α) (hs : 0 ≤ s) (hst : s ≤ t) (ht : t ≤ 1) :
    ease s ≤ ease t := by
  rcases lt_or_le s (1 / 2) with hs2 | hs2
  · rcases lt_or_le t (1 / 2) with ht2 | ht2
    · rw [ease_of_lt hs2, ease_of_lt ht2]
      have := cube_le_cube hs hst
      linarith
    · rw [ease_of_lt hs2, ease_of_ge ht2]
      have h1 : s ^ 3 ≤ (1 / 2 : α) ^ 3 := cube_le_cube hs hs2.le
      have h2 : (2 - 2 * t) ^ 3 ≤ (1 : α) ^ 3 :=
        cube_le_cube (by linarith) (by linarith)
      have h3 : ((1 : α) / 2) ^ 3 = 1 / 8 := by norm_num
      have h4 : (1 : α) ^ 3 = 1 := by norm_num
      rw [h3] at h1
      rw [h4] at h2
      linarith
  · have ht2 : 1 / 2 ≤ t := le_trans hs2 hst
    rw [ease_of_ge hs2, ease_of_ge ht2]
    have h : (2 - 2 * t) ^ 3 ≤ (2 - 2 * s) ^ 3 :=
      cube_le_cube (by linarith) (by linarith)
    linarith

/-- Witness for C2 at the straddling pair `s = 1/4`, `t = 3/4` over `ℚ`. -/
theorem ease_monotone_on_unit_witness :
    (0 : ℚ) ≤ 1 / 4 ∧ (1 / 4 : ℚ) ≤ 3 / 4 ∧ (3 / 4 : ℚ) ≤ 1 ∧
      ease (1 / 4 : ℚ) ≤ ease (3 / 4 : ℚ) :=
  ⟨by norm_num, by norm_num, by norm_num,
    ease_monotone_on_unit (1 / 4 : ℚ) (3 / 4) (by norm_num) (by norm_num) (by norm_num)⟩

/-- Claim C3: the easing fixes the anchor points, `ease 0 = 0`, `ease 0.5 = 0.5`,
`ease 1 = 1`, and consequently `lerp a b 0 = a` and `lerp a b 1 = b` for all
`a`, `b`. -/
theorem ease_anchor_points :
    ease (0 : α) = 0 ∧ ease (0.5 : α) = 0.5 ∧ ease (1 : α) = 1 ∧
      (∀ a b : α, lerp a b 0 = a) ∧ (∀ a b : α, lerp a b 1 = b) := by
  refine ⟨ease_zero, ?_, ease_one, ?_, ?_⟩
  · rw [half_eq]; exact ease_half
  · intro a b
    rw [lerp_eq_ease, ease_zero]; ring
  · intro a b
    rw [lerp_eq_ease, ease_one]; ring

/-! ## `updateModel` -/

/-- The state `updateModel` produces when a model is present: the phase bands
contribute nothing. -/
theorem updateModel_of_model (pi : α) (s : SceneManager α) (m : Object3D α)
    (hm : s.model = some m) :
    updateModel pi s =
      { s with
        camera := { s.camera with
          position := ⟨s.camera.position.x, s.camera.position.y, lerp 50 100 s.scrollPercent⟩ }
        model := some
          { m with
            position := ⟨m.position.x, lerp (-20) 20 s.scrollPercent, lerp 0 50 s.scrollPercent⟩
            rotation := ⟨s.scrollPercent * pi * 2, s.scrollPercent * pi * 2,
              s.scrollPercent * pi * 2⟩
            scale := Vector3.setScalar (lerp 20 25 s.scrollPercent) } } := by
  unfold updateModel
  rw [hm]
  simp only []
  split_ifs <;> rfl

/-- Claim C1: with a model loaded, one call of `updateModel` leaves, for every scroll
progress `p` (whatever phase band it lies in), `camera.position.z = 50 + 50 * ease p`,
`model.position.y = -20 + 40 * ease p`, `model.position.z = 50 * ease p`, the three
rotation angles equal to `2 * pi * p` and the uniform scale `20 + 5 * ease p`; at
`p = 0` these are `(50, -20, 0, 20, 0)` and at `p = 1` they are
`(100, 20, 50, 25, 2 * pi)`. -/
theorem updateModel_transforms (pi : α) (s : SceneManager α) (m : Object3D α)
    (hm : s.model = some m) :
    ∃ m' : Object3D α, (updateModel pi s).model = some m' ∧
      (updateModel pi s).camera.position.z = 50 + 50 * ease s.scrollPercent ∧
      m'.position.y = -20 + 40 * ease s.scrollPercent ∧
      m'.position.z = 50 * ease s.scrollPercent ∧
      m'.rotation = ⟨2 * pi * s.scrollPercent, 2 * pi * s.scrollPercent,
        2 * pi * s.scrollPercent⟩ ∧
      m'.scale = ⟨20 + 5 * ease s.scrollPercent, 20 + 5 * ease s.scrollPercent,
        20 + 5 * ease s.scrollPercent⟩ ∧
      (s.scrollPercent = 0 →
        (updateModel pi s).camera.position.z = 50 ∧ m'.position.y = -20 ∧
          m'.position.z = 0 ∧ m'.scale = ⟨20, 20, 20⟩ ∧ m'.rotation = ⟨0, 0, 0⟩) ∧
      (s.scrollPercent = 1 →
        (updateModel pi s).camera.position.z = 100 ∧ m'.position.y = 20 ∧
          m'.position.z = 50 ∧ m'.scale = ⟨25, 25, 25⟩ ∧
          m'.rotation = ⟨2 * pi, 2 * pi, 2 * pi⟩) := by
  rw [updateModel_of_model pi s m hm]
  refine ⟨_, rfl, ?_, ?_, ?_, ?_, ?_, ?_, ?_⟩
  · simp only [lerp_eq_ease]; ring
  · simp only [lerp_eq_ease]; ring
  · simp only [lerp_eq_ease]; ring
  · simp only [Vector3.mk.injEq]
    refine ⟨?_, ?_, ?_⟩ <;> ring
  · simp only [Vector3.setScalar, lerp_eq_ease, Vector3.mk.injEq]
    refine ⟨?_, ?_, ?_⟩ <;> ring
  · intro h0
    simp only [h0, lerp_eq_ease, ease_zero, Vector3.setScalar, Vector3.mk.injEq]
    norm_num
  · intro h1
    simp only [h1, lerp_eq_ease, ease_one, Vector3.setScalar, Vector3.mk.injEq]
    norm_num
    ring

/-- Witness for C1: the loaded instance `demoLoaded` over `ℚ`. -/
theorem updateModel_transforms_witness :
    demoLoaded.model = some demoAsset ∧
    ∃ m' : Object3D ℚ, (updateModel mathPI demoLoaded).model = some m' ∧
      (updateModel mathPI demoLoaded).camera.position.z = 50 + 50 * ease demoLoaded.scrollPercent ∧
      m'.position.y = -20 + 40 * ease demoLoaded.scrollPercent ∧
      m'.position.z = 50 * ease demoLoaded.scrollPercent ∧
      m'.rotation = ⟨2 * mathPI * demoLoaded.scrollPercent, 2 * mathPI * demoLoaded.scrollPercent,
        2 * mathPI * demoLoaded.scrollPercent⟩ ∧
      m'.scale = ⟨20 + 5 * ease demoLoaded.scrollPercent, 20 + 5 * ease demoLoaded.scrollPercent,
        20 + 5 * ease demoLoaded.scrollPercent⟩ ∧
      (demoLoaded.scrollPercent = 0 →
        (updateModel mathPI demoLoaded).camera.position.z = 50 ∧ m'.position.y = -20 ∧
          m'.position.z = 0 ∧ m'.scale = ⟨20, 20, 20⟩ ∧ m'.rotation = ⟨0, 0, 0⟩) ∧
      (demoLoaded.scrollPercent = 1 →
        (updateModel mathPI demoLoaded).camera.position.z = 100 ∧ m'.position.y = 20 ∧
          m'.position.z = 50 ∧ m'.scale = ⟨25, 25, 25⟩ ∧
          m'.rotation = ⟨2 * mathPI, 2 * mathPI, 2 * mathPI⟩) :=
  ⟨rfl, updateModel_transforms mathPI demoLoaded demoAsset rfl⟩

/-- Claim C8: while the model is absent (`model = null`), `updateModel` is a no-op for
every scroll progress: the whole instance, `camera.position.z` and `scrollPercent`
included, is unchanged. -/
theorem updateModel_absent (pi : α) (s : SceneManager α) (h : s.model = none) :
    updateModel pi s = s := by
  unfold updateModel
  rw [h]

/-- Witness for C8: the instance `demoEmpty`, whose model is `null`. -/
theorem updateModel_absent_witness :
    demoEmpty.model = none ∧ updateModel mathPI demoEmpty = demoEmpty :=
  ⟨rfl, updateModel_absent mathPI demoEmpty rfl⟩

/-! ## `onScroll` -/

theorem heroOpacity_eq (p : α) :
    heroOpacity p = if p ≤ 1 / 10 then 1 else if p ≤ 3 / 20 then 1 - (p - 1 / 10) * 20 else 0 := by
  have h1 : (0.1 : α) = 1 / 10 := by norm_num
  have h2 : (0.15 : α) = 3 / 20 := by norm_num
  simp only [heroOpacity, h1, h2]
  split_ifs
  · rfl
  · field_simp
    ring
  · rfl

theorem heroOpacity_bounds (p : α) : 0 ≤ heroOpacity p ∧ heroOpacity p ≤ 1 := by
  rw [heroOpacity_eq]
  split_ifs with h1 h2
  · exact ⟨zero_le_one, le_refl _⟩
  · push_neg at h1
    constructor <;> linarith
  · exact ⟨le_refl _, zero_le_one⟩

theorem heroOpacity_antitone (p q : α) (hpq : p ≤ q) : heroOpacity q ≤ heroOpacity p := by
  have hb := heroOpacity_bounds q
  have hb' := heroOpacity_bounds p
  rw [heroOpacity_eq] at hb hb' ⊢
  rw [heroOpacity_eq]
  split_ifs at hb hb' ⊢ with h1 h2 h3 h4 h5 h6 <;> linarith

/-- What `onScroll` does on a scroll range that is not zero, with a `.hero`
element present. -/
theorem onScroll_of_range (w : Window α) (doc : Document α) (s : SceneManager α) (p o : α)
    (hp : jsDiv w.scrollY (doc.scrollHeight - w.innerHeight) = some p) (hhero : doc.hero = some o) :
    onScroll w doc s =
      .done { s with scrollPercent := p } { doc with hero := some (heroOpacity p) } := by
  unfold onScroll
  simp only [hp, hhero]

/-- Claim C4: for every raw scroll progress `p` that `onScroll` computes, the hero
opacity it writes is `1` when `p` is below `0.1`, `0` when `p` is above `0.15`, and
`1 - (p - 0.1) / 0.05` for `0.1 ≤ p ≤ 0.15`; the value lies in `[0,1]`, is
non-increasing in `p`, and agrees with the neighbouring pieces at both thresholds.
At `0.05`, `0.125`, `0.2` it is `1`, `0.5`, `0`. -/
theorem onScroll_hero_opacity (w : Window α) (doc : Document α) (s : SceneManager α) (p o : α)
    (hp : jsDiv w.scrollY (doc.scrollHeight - w.innerHeight) = some p) (hhero : doc.hero = some o) :
    (∃ s' doc', onScroll w doc s = .done s' doc' ∧ s'.scrollPercent = p ∧
        doc'.hero = some (heroOpacity p)) ∧
      (p < 0.1 → heroOpacity p = 1) ∧
      (0.15 < p → heroOpacity p = 0) ∧
      (0.1 ≤ p → p ≤ 0.15 → heroOpacity p = 1 - (p - 0.1) / 0.05) ∧
      (0 ≤ heroOpacity p ∧ heroOpacity p ≤ 1) ∧
      (∀ q : α, p ≤ q → heroOpacity q ≤ heroOpacity p) ∧
      (∀ q : α, q ≤ p → heroOpacity p ≤ heroOpacity q) ∧
      (heroOpacity (0.1 : α) = 1 ∧ heroOpacity (0.15 : α) = 0) ∧
      (heroOpacity (0.05 : α) = 1 ∧ heroOpacity (0.125 : α) = 0.5 ∧ heroOpacity (0.2 : α) = 0) := by
  refine ⟨⟨_, _, onScroll_of_range w doc s p o hp hhero, rfl, rfl⟩, ?_, ?_, ?_,
    heroOpacity_bounds p, fun q h => heroOpacity_antitone p q h,
    fun q h => heroOpacity_antitone q p h, ⟨?_, ?_⟩, ?_, ?_, ?_⟩
  · intro h
    rw [heroOpacity_eq, if_pos (by norm_num at h; linarith)]
  · intro h
    have h' : (3 / 20 : α) < p := by norm_num at h; linarith
    rw [heroOpacity_eq, if_neg (by linarith), if_neg (by linarith)]
  · intro h1 h2
    have h1' : (1 / 10 : α) ≤ p := by norm_num at h1; linarith
    have h2' : p ≤ (3 / 20 : α) := by norm_num at h2; linarith
    rw [heroOpacity_eq]
    split_ifs with h3
    · have : p = 1 / 10 := le_antisymm h3 h1'
      rw [this]; norm_num
    · norm_num
      ring
  · rw [heroOpacity_eq]; norm_num
  · rw [heroOpacity_eq]; norm_num
  · rw [heroOpacity_eq]; norm_num
  · rw [heroOpacity_eq]; norm_num
  · rw [heroOpacity_eq]; norm_num

/-- Witness for C4: `demoWindow` over `demoDocument`, raw progress `250 / 2000 = 0.125`. -/
theorem onScroll_hero_opacity_witness :
    jsDiv demoWindow.scrollY (demoDocument.scrollHeight - demoWindow.innerHeight) = some (1 / 8) ∧
    demoDocument.hero = some 1 ∧
    (∃ s' doc', onScroll demoWindow demoDocument demoLoaded = .done s' doc' ∧
        s'.scrollPercent = 1 / 8 ∧ doc'.hero = some (heroOpacity (1 / 8 : ℚ))) ∧
    heroOpacity (1 / 8 : ℚ) = 1 - (1 / 8 - 0.1) / 0.05 :=
  have hp : jsDiv demoWindow.scrollY (demoDocument.scrollHeight - demoWindow.innerHeight)
      = some (1 / 8 : ℚ) := by
    norm_num [jsDiv, demoWindow, demoDocument]
  have h := onScroll_hero_opacity demoWindow demoDocument demoLoaded (1 / 8) 1 hp rfl
  ⟨hp, rfl, h.1, h.2.2.2.1 (by norm_num) (by norm_num)⟩

/-- The claim C5 fails at scroll offset `0` on a document exactly as tall as the
viewport: `0 / 0` is not a number, `onScroll` ends without any numeric progress,
and in particular it does not store the fallback `0`. -/
theorem degenerate_range_stores_no_fallback :
    flatDocument.scrollHeight = topWindow.innerHeight ∧
    onScroll topWindow flatDocument demoLoaded = .notANumber ∧
    ¬ ∃ s' doc', onScroll topWindow flatDocument demoLoaded = .done s' doc' ∧
        s'.scrollPercent = 0 := by
  have h : onScroll topWindow flatDocument demoLoaded = .notANumber := by
    simp [onScroll, jsDiv, topWindow, flatDocument]
  refine ⟨rfl, h, ?_⟩
  rintro ⟨s', doc', h', -⟩
  rw [h] at h'
  cases h'

/-- Claim C5, amended: on a degenerate scroll range (`scrollHeight = innerHeight`) the
progress computed by `onScroll` is not a number, for every `scrollY`, every document
and every instance: the division by the zero range has no result and no fallback
value is stored. -/
theorem onScroll_degenerate (w : Window α) (doc : Document α) (s : SceneManager α)
    (h : doc.scrollHeight = w.innerHeight) :
    jsDiv w.scrollY (doc.scrollHeight - w.innerHeight) = none ∧
      onScroll w doc s = .notANumber := by
  have hd : jsDiv w.scrollY (doc.scrollHeight - w.innerHeight) = none := by
    simp [jsDiv, h]
  refine ⟨hd, ?_⟩
  unfold onScroll
  simp only [hd]

/-- Witness for the amended C5: `demoWindow` (scroll offset 250) over `flatDocument`. -/
theorem onScroll_degenerate_witness :
    flatDocument.scrollHeight = demoWindow.innerHeight ∧
    jsDiv demoWindow.scrollY (flatDocument.scrollHeight - demoWindow.innerHeight) = none ∧
      onScroll demoWindow flatDocument demoLoaded = .notANumber :=
  ⟨rfl, onScroll_degenerate demoWindow flatDocument demoLoaded rfl⟩

/-! ## `onWindowResize` -/

/-- The state `onWindowResize` produces for a viewport of non-zero height. -/
theorem onWindowResize_of_height (w : Window α) (s : SceneManager α) (hH : w.innerHeight ≠ 0) :
    onWindowResize w s =
      some { s with
        camera := { s.camera with
          aspect := w.innerWidth / w.innerHeight
          projectionMatrix :=
            ⟨s.camera.fov, w.innerWidth / w.innerHeight, s.camera.near, s.camera.far⟩ }
        renderer := { s.renderer with width := w.innerWidth, height := w.innerHeight } } := by
  have hd : jsDiv w.innerWidth w.innerHeight = some (w.innerWidth / w.innerHeight) := by
    simp [jsDiv, hH]
  unfold onWindowResize
  simp only [hd]
  rfl

/-- Claim C7: for every new viewport `(W, H)` with `H > 0`, `onWindowResize` sets
`camera.aspect` to `W / H` and the renderer output size to `(W, H)`; `fov`, `near`,
`far`, the camera position and its look-at target are as before, the projection
matrix is the one of the new parameters, and the scene, the model, `scrollPercent`
and the last drawn frame are unchanged. -/
theorem onWindowResize_frame (w : Window α) (s : SceneManager α) (hH : 0 < w.innerHeight) :
    ∃ s' : SceneManager α, onWindowResize w s = some s' ∧
      s'.camera.aspect = w.innerWidth / w.innerHeight ∧
      s'.renderer.width = w.innerWidth ∧ s'.renderer.height = w.innerHeight ∧
      s'.camera.fov = s.camera.fov ∧ s'.camera.near = s.camera.near ∧
      s'.camera.far = s.camera.far ∧ s'.camera.position = s.camera.position ∧
      s'.camera.target = s.camera.target ∧
      s'.camera.projectionMatrix =
        ⟨s.camera.fov, w.innerWidth / w.innerHeight, s.camera.near, s.camera.far⟩ ∧
      s'.model = s.model ∧ s'.scrollPercent = s.scrollPercent ∧ s'.scene = s.scene ∧
      s'.renderer.frame = s.renderer.frame := by
  rw [onWindowResize_of_height w s (ne_of_gt hH)]
  exact ⟨_, rfl, rfl, rfl, rfl, rfl, rfl, rfl, rfl, rfl, rfl, rfl, rfl, rfl, rfl⟩

/-- Witness for C7: resizing `demoLoaded` to the 1024 x 768 viewport of `demoWindow`. -/
theorem onWindowResize_frame_witness :
    (0 : ℚ) < demoWindow.innerHeight ∧
    ∃ s' : SceneManager ℚ, onWindowResize demoWindow demoLoaded = some s' ∧
      s'.camera.aspect = demoWindow.innerWidth / demoWindow.innerHeight ∧
      s'.renderer.width = demoWindow.innerWidth ∧ s'.renderer.height = demoWindow.innerHeight ∧
      s'.camera.fov = demoLoaded.camera.fov ∧ s'.camera.near = demoLoaded.camera.near ∧
      s'.camera.far = demoLoaded.camera.far ∧ s'.camera.position = demoLoaded.camera.position ∧
      s'.camera.target = demoLoaded.camera.target ∧
      s'.camera.projectionMatrix =
        ⟨demoLoaded.camera.fov, demoWindow.innerWidth / demoWindow.innerHeight,
          demoLoaded.camera.near, demoLoaded.camera.far⟩ ∧
      s'.model = demoLoaded.model ∧ s'.scrollPercent = demoLoaded.scrollPercent ∧
      s'.scene = demoLoaded.scene ∧ s'.renderer.frame = demoLoaded.renderer.frame :=
  have h0 : (0 : ℚ) < demoWindow.innerHeight := by norm_num [demoWindow]
  ⟨h0, onWindowResize_frame demoWindow demoLoaded h0⟩

/-! ## `setupLights` -/

/-- Removing, one `erase` at a time, every element of the filtered copy leaves the
elements that fail the test, in their original order. -/
theorem foldl_erase_filter {β : Type} [DecidableEq β] (p : β → Bool) (l acc : List β)
    (hacc : ∀ a ∈ acc, p a = false) :
    (l.filter p).foldl (fun cs x => cs.erase x) (acc ++ l)
      = acc ++ l.filter (fun a => !p a) := by
  induction l generalizing acc with
  | nil => simp
  | cons a l ih =>
    by_cases hp : p a = true
    · have hmem : a ∉ acc := fun h => by
        have := hacc a h
        rw [hp] at this
        exact Bool.noConfusion this
      rw [List.filter_cons_of_pos hp, List.foldl_cons, List.erase_append_right _ hmem,
        List.erase_cons_head, ih acc hacc]
      simp [hp]
    · have hp' : p a = false := by simpa using hp
      have hsplit : acc ++ a :: l = (acc ++ [a]) ++ l := by simp
      rw [List.filter_cons_of_neg hp, hsplit, ih (acc ++ [a])]
      · simp [hp']
      · intro b hb
        rcases List.mem_append.mp hb with h | h
        · exact hacc b h
        · rw [List.mem_singleton.mp h]; exact hp'

/-- The scene `setupLights` produces: the non-light children in their original
order, followed by the four lights. -/
theorem setupLights_scene (pi : α) (s : SceneManager α) :
    setupLights pi s =
      { s with scene := s.scene.filter (fun c => !c.isLight) ++ lightRig pi } := by
  have h := foldl_erase_filter SceneChild.isLight s.scene [] (fun a ha => by cases ha)
  simp only [List.nil_append] at h
  simp only [setupLights, h, lightRig, List.append_assoc, List.cons_append, List.nil_append]

theorem filter_isLight_lightRig (pi : α) :
    (lightRig pi).filter SceneChild.isLight = lightRig pi := by
  simp [lightRig, SceneChild.isLight]

theorem filter_not_isLight_lightRig (pi : α) :
    (lightRig pi).filter (fun c => !c.isLight) = [] := by
  simp [lightRig, SceneChild.isLight]

/-- Claim C9: `setupLights` is idempotent on the scene's child list.  For every scene,
after `setupLights` the lights of the scene are exactly the four of the rig (one
ambient, one directional, one spot, one point, with the fixed parameters), the
non-light children are kept in their original order, nothing but the child list
changes, and a second application gives the same instance as the first. -/
theorem setupLights_idempotent (pi : α) (s : SceneManager α) :
    (setupLights pi s).scene.filter SceneChild.isLight =
        [ .light (.ambient 0xFFFFFF 0.8),
          .light (.directional 0xFFFFFF 4.0 ⟨2, 5, 5⟩),
          .light (.spot 0xFF00FF 10 ⟨-5, 10, 5⟩ (pi / 4) 0.5),
          .light (.point 0x4B0082 3 100 ⟨5, -5, -5⟩) ] ∧
      (setupLights pi s).scene.filter (fun c => !c.isLight)
        = s.scene.filter (fun c => !c.isLight) ∧
      (setupLights pi s).scene = s.scene.filter (fun c => !c.isLight) ++
        (setupLights pi s).scene.filter SceneChild.isLight ∧
      (setupLights pi s).camera = s.camera ∧ (setupLights pi s).renderer = s.renderer ∧
      (setupLights pi s).model = s.model ∧
      (setupLights pi s).scrollPercent = s.scrollPercent ∧
      setupLights pi (setupLights pi s) = setupLights pi s := by
  have hl : ((setupLights pi s).scene.filter SceneChild.isLight) = lightRig pi := by
    rw [setupLights_scene]
    simp only [List.filter_append, filter_isLight_lightRig, List.filter_filter]
    simp
  have hn : (setupLights pi s).scene.filter (fun c => !c.isLight)
      = s.scene.filter (fun c => !c.isLight) := by
    rw [setupLights_scene]
    simp only [List.filter_append, filter_not_isLight_lightRig, List.filter_filter]
    simp
  refine ⟨hl, hn, ?_, ?_, ?_, ?_, ?_, ?_⟩
  · rw [hl, setupLights_scene]
  · rw [setupLights_scene]
  · rw [setupLights_scene]
  · rw [setupLights_scene]
  · rw [setupLights_scene]
  · rw [setupLights_scene pi (setupLights pi s), hn, setupLights_scene pi s]

/-! ## `loadModel` -/

theorem setFromObject_isEmpty (o : Object3D α) :
    (Box3.setFromObject o).isEmpty = o.geometry.isEmpty := by
  unfold Box3.setFromObject
  split_ifs with h
  · rfl
  · have h' : o.geometry.isEmpty = false := by simpa using h
    rw [h']
    simp [Box3.isEmpty, min_le_max, not_lt]

theorem getSize_of_isEmpty (b : Box3 α) (h : b.isEmpty = true) : b.getSize = ⟨0, 0, 0⟩ := by
  simp [Box3.getSize, h]

theorem getCenter_x_setFromObject (o : Object3D α) (h : o.geometry.isEmpty = false) :
    (Box3.setFromObject o).getCenter.x
      = ((o.geometry.min.x + o.geometry.max.x) * o.scale.x) / 2 + o.position.x := by
  have he : (Box3.setFromObject o).isEmpty = false := by rw [setFromObject_isEmpty, h]
  unfold Box3.getCenter
  rw [he]
  simp only [Bool.false_eq_true, if_false]
  unfold Box3.setFromObject
  rw [h]
  simp only [Bool.false_eq_true, if_false, min_add_max]
  norm_num
  ring

/-- The state the load callback produces when the measured box has a non-zero
largest edge. -/
theorem loadModel_of_maxDim (s : SceneManager α) (g : Object3D α) (M : α)
    (hMdef : M = max (max (stagedBox g).getSize.x (stagedBox g).getSize.y) (stagedBox g).getSize.z)
    (hM : M ≠ 0) :
    loadModel (some g) s =
      some { s with
        scene := s.scene ++ [SceneChild.model]
        model := some
          { g with
            nodes := paintedNodes g.nodes
            position := ⟨0 - (stagedBox g).getCenter.x * (20 / M), -70, 50⟩
            scale := ⟨20 / M, 20 / M, 20 / M⟩ } } := by
  have hbox : ∀ n : List (Node α),
      Box3.setFromObject { g with nodes := n, position := ⟨0, -70, 50⟩ } = stagedBox g := fun _ => rfl
  have hd : jsDiv 20 M = some (20 / M) := by simp [jsDiv, hM]
  unfold loadModel
  simp only [hbox, ← hMdef, hd]
  rfl

/-- Claim C6: for every loaded model whose bounding box, measured by the load
callback, has edge lengths `(sx, sy, sz)` with largest edge `M > 0` and centre
x-coordinate `cx`, the callback sets the uniform scale to exactly `20 / M` and the
position to `(-cx * 20 / M, -70, 50)`; for a root that arrives unrotated and at unit
scale the bounding box of the scaled model is then centred at `x = 0`. -/
theorem loadModel_normalizes (s : SceneManager α) (g : Object3D α) (sx sy sz cx M : α)
    (hsize : (stagedBox g).getSize = ⟨sx, sy, sz⟩) (hcx : (stagedBox g).getCenter.x = cx)
    (hMdef : M = max (max sx sy) sz) (hM : 0 < M) :
    ∃ (s' : SceneManager α) (m : Object3D α),
      loadModel (some g) s = some s' ∧ s'.model = some m ∧
      m.scale = ⟨20 / M, 20 / M, 20 / M⟩ ∧
      m.position = ⟨-cx * 20 / M, -70, 50⟩ ∧
      (g.rotation = ⟨0, 0, 0⟩ → g.scale = ⟨1, 1, 1⟩ →
        (Box3.setFromObject m).getCenter.x = 0) := by
  have hMdef' : M = max (max (stagedBox g).getSize.x (stagedBox g).getSize.y)
      (stagedBox g).getSize.z := by rw [hsize]; exact hMdef
  rw [loadModel_of_maxDim s g M hMdef' (ne_of_gt hM)]
  refine ⟨_, _, rfl, rfl, rfl, ?_, ?_⟩
  · simp only [hcx, Vector3.mk.injEq, and_true]
    ring
  · intro _ hscale
    have hne : g.geometry.isEmpty = false := by
      by_contra hc
      have hc' : g.geometry.isEmpty = true := by simpa using hc
      have he : (stagedBox g).isEmpty = true := by
        unfold stagedBox
        rw [setFromObject_isEmpty]
        exact hc'
      rw [getSize_of_isEmpty _ he] at hsize
      simp only [Vector3.mk.injEq] at hsize
      obtain ⟨h1, h2, h3⟩ := hsize
      rw [← h1, ← h2, ← h3] at hMdef
      simp at hMdef
      rw [hMdef] at hM
      exact lt_irrefl _ hM
    have hc1 : (stagedBox g).getCenter.x = (g.geometry.min.x + g.geometry.max.x) / 2 := by
      unfold stagedBox
      rw [getCenter_x_setFromObject { g with position := ⟨0, -70, 50⟩ } hne]
      simp [hscale]
    rw [getCenter_x_setFromObject
      { g with
        nodes := paintedNodes g.nodes
        position := ⟨0 - (stagedBox g).getCenter.x * (20 / M), -70, 50⟩
        scale := ⟨20 / M, 20 / M, 20 / M⟩ } hne]
    simp only [hc1]
    ring

/-- Witness for C6: the asset `demoAsset`, whose staged box has edges `(2, 1, 1)` and
centre x-coordinate `2`. -/
theorem loadModel_normalizes_witness :
    (stagedBox demoAsset).getSize = ⟨2, 1, 1⟩ ∧ (stagedBox demoAsset).getCenter.x = 2 ∧
    (2 : ℚ) = max (max 2 1) 1 ∧ (0 : ℚ) < 2 ∧
    ∃ (s' : SceneManager ℚ) (m : Object3D ℚ),
      loadModel (some demoAsset) freshInstance = some s' ∧ s'.model = some m ∧
      m.scale = ⟨20 / 2, 20 / 2, 20 / 2⟩ ∧
      m.position = ⟨-2 * 20 / 2, -70, 50⟩ ∧
      (demoAsset.rotation = ⟨0, 0, 0⟩ → demoAsset.scale = ⟨1, 1, 1⟩ →
        (Box3.setFromObject m).getCenter.x = 0) :=
  have hsize : (stagedBox demoAsset).getSize = (⟨2, 1, 1⟩ : Vector3 ℚ) := by
    norm_num [stagedBox, Box3.setFromObject, Box3.getSize, Box3.isEmpty, demoAsset]
  have hcx : (stagedBox demoAsset).getCenter.x = (2 : ℚ) := by
    norm_num [stagedBox, Box3.setFromObject, Box3.getCenter, Box3.isEmpty, demoAsset]
  have hmax : (2 : ℚ) = max (max 2 1) 1 := by norm_num
  ⟨hsize, hcx, hmax, by norm_num,
    loadModel_normalizes freshInstance demoAsset 2 1 1 2 2 hsize hcx hmax (by norm_num)⟩

/-! ## Load followed by one animation tick -/

/-- The scale of the model drawn by the first tick after a load is the one
`updateModel` assigns, whatever scale the load callback had computed. -/
theorem animate_drawn_scale (pi : α) (controlsUpdate : PerspectiveCamera α → PerspectiveCamera α)
    (s : SceneManager α) (m : Object3D α) (hm : s.model = some m) :
    ∃ f d, (animate pi controlsUpdate s).renderer.frame = some f ∧ f.model = some d ∧
      d.scale = Vector3.setScalar (lerp 20 25 s.scrollPercent) ∧ d.geometry = m.geometry := by
  unfold animate
  rw [updateModel_of_model pi s m hm]
  exact ⟨_, _, rfl, rfl, rfl, rfl⟩

/-- Claim C10 evaluated on the code: `unitCube` (largest edge 1) and `doubleCube`
(largest edge 2) are loaded into the same fresh instance at scroll progress 0.  The
load callback normalises both (scales 20 and 10, so scale times largest edge is 20
for each), but the first animation tick draws both at scale 20, so the drawn
largest edges are 20 and 40. -/
theorem normalisation_overwritten_at_draw :
    ∃ (s1 s2 : SceneManager ℚ) (m1 m2 : Object3D ℚ) (f1 f2 : Frame ℚ) (d1 d2 : Object3D ℚ),
      loadModel (some unitCube) freshInstance = some s1 ∧
      loadModel (some doubleCube) freshInstance = some s2 ∧
      s1.model = some m1 ∧ s2.model = some m2 ∧
      m1.scale = ⟨20, 20, 20⟩ ∧ m2.scale = ⟨10, 10, 10⟩ ∧
      (animate mathPI id s1).renderer.frame = some f1 ∧
      (animate mathPI id s2).renderer.frame = some f2 ∧
      f1.model = some d1 ∧ f2.model = some d2 ∧
      d1.scale = ⟨20, 20, 20⟩ ∧ d2.scale = ⟨20, 20, 20⟩ ∧
      drawnMaxExtent f1 = some 20 ∧ drawnMaxExtent f2 = some 40 := by
  have hs1 : (stagedBox unitCube).getSize = (⟨1, 1, 1⟩ : Vector3 ℚ) := by
    norm_num [stagedBox, Box3.setFromObject, Box3.getSize, Box3.isEmpty, unitCube]
  have hs2 : (stagedBox doubleCube).getSize = (⟨2, 2, 2⟩ : Vector3 ℚ) := by
    norm_num [stagedBox, Box3.setFromObject, Box3.getSize, Box3.isEmpty, doubleCube]
  have hM1 : (1 : ℚ) = max (max (stagedBox unitCube).getSize.x (stagedBox unitCube).getSize.y)
      (stagedBox unitCube).getSize.z := by rw [hs1]; norm_num
  have hM2 : (2 : ℚ) = max (max (stagedBox doubleCube).getSize.x (stagedBox doubleCube).getSize.y)
      (stagedBox doubleCube).getSize.z := by rw [hs2]; norm_num
  have hl1 := loadModel_of_maxDim freshInstance unitCube 1 hM1 (by norm_num)
  have hl2 := loadModel_of_maxDim freshInstance doubleCube 2 hM2 (by norm_num)
  obtain ⟨f1, d1, hf1, hd1, hc1, hg1⟩ := animate_drawn_scale mathPI id _ _
    (show (SceneManager.mk (freshInstance.scene ++ [SceneChild.model]) freshInstance.camera
      freshInstance.renderer (some
        { unitCube with
          nodes := paintedNodes unitCube.nodes
          position := ⟨0 - (stagedBox unitCube).getCenter.x * (20 / 1), -70, 50⟩
          scale := ⟨20 / 1, 20 / 1, 20 / 1⟩ }) freshInstance.scrollPercent).model = _ from rfl)
  obtain ⟨f2, d2, hf2, hd2, hc2, hg2⟩ := animate_drawn_scale mathPI id _ _
    (show (SceneManager.mk (freshInstance.scene ++ [SceneChild.model]) freshInstance.camera
      freshInstance.renderer (some
        { doubleCube with
          nodes := paintedNodes doubleCube.nodes
          position := ⟨0 - (stagedBox doubleCube).getCenter.x * (20 / 2), -70, 50⟩
          scale := ⟨20 / 2, 20 / 2, 20 / 2⟩ }) freshInstance.scrollPercent).model = _ from rfl)
  have hlerp : lerp (20 : ℚ) 25 freshInstance.scrollPercent = 20 := by
    norm_num [freshInstance, lerp]
  rw [hlerp] at hc1 hc2
  have hg1' : d1.geometry = ⟨⟨0, 0, 0⟩, ⟨1, 1, 1⟩⟩ := hg1
  have hg2' : d2.geometry = ⟨⟨0, 0, 0⟩, ⟨2, 2, 2⟩⟩ := hg2
  refine ⟨_, _, _, _, f1, f2, d1, d2, hl1, hl2, rfl, rfl, ?_, ?_, hf1, hf2, hd1, hd2, hc1, hc2,
    ?_, ?_⟩
  · norm_num
  · norm_num
  · simp only [drawnMaxExtent, hd1, Option.map_some', Box3.setFromObject, Box3.getSize,
      Box3.isEmpty, hg1', hc1, Vector3.setScalar]
    norm_num
  · simp only [drawnMaxExtent, hd2, Option.map_some', Box3.setFromObject, Box3.getSize,
      Box3.isEmpty, hg2', hc2, Vector3.setScalar]
    norm_num

end SceneManager

end Script
